import Mathlib

/-!
Shallow embedding of the `sklearn-proj` embedding-comparison notebooks.

The repository's executable logic is a trial runner `calc_ari` (two variants)
plus a handful of scenario-construction cells.  All numerical work (spectral
embeddings, Gaussian-mixture clustering, Adjusted Rand Index, singular value
decomposition, k-nearest-neighbor graph construction, element-wise square
roots) is delegated to external libraries; those collaborators are modelled
here as oracle parameters gathered in a structure, while the repository's own
control flow (method dispatch, concatenation, the trial loop, scenario
parameter wiring, aggregation) is translated directly from the source.

Matrices are `List (List ℚ)` (rows of rational entries); scores are `ℚ`.
Python's `UnboundLocalError` (reading the never-assigned `Xhat` after an
unrecognized `embed_method`) is modelled with `Option`-valued locals and an
`Except` error raised exactly where the Python name lookup fails.
-/

/-- A numeric matrix, as a list of rows. -/
abbrev Mat : Type := List (List ℚ)

/-- Models `np.concatenate((X, Y), axis=1)`: append the rows pairwise (column-wise
concatenation).  NumPy requires equal row counts; `zipWith` agrees with it on
that domain. -/
def hconcat (X Y : Mat) : Mat := List.zipWith (fun a b => a ++ b) X Y

/-- Models `np.concatenate((X, Y), axis=0)`: stack the rows (row-wise concatenation). -/
def vconcat (X Y : Mat) : Mat := X ++ Y

/-- The external library collaborators used by `calc_ari`
(`part_000` / first tutorial document variant).  Each is an abstract pure
function, per the spec's scoping of all numerical algorithms to external
libraries.  `gmmFitPredict` additionally receives the trial index, standing
for the state of the global random generator consumed by Gaussian-mixture
fitting (the only randomized step inside a trial). -/
structure Externals where
  /-- Models `AdjacencySpectralEmbed(n_components=2).fit_transform`: adjacency matrix
  to a pair (row-space, column-space) of coordinate matrices. -/
  aseEmbed : Mat → Mat × Mat
  /-- Models `LaplacianSpectralEmbed(n_components=2).fit_transform`. -/
  lseEmbed : Mat → Mat × Mat
  /-- Models `sklearn.manifold.spectral_embedding(·, n_components=2)`: a single
  coordinate matrix. -/
  sklEmbed : Mat → Mat
  /-- Models `GaussianMixture(n_components=2, covariance_type=cov_type).fit_predict`:
  trial index (randomness), covariance type, coordinates ↦ predicted labels. -/
  gmmFitPredict : Nat → String → Mat → List Nat
  /-- Models `sklearn.metrics.adjusted_rand_score`. -/
  ariScore : List Nat → List Nat → ℚ

/-- Runtime failures of the translated Python code. `unboundLocal` is the
`UnboundLocalError` Python raises when a name that was never assigned is
read; `unsupportedMethod` is the explicit, documented error the spec's §7/§8
demand for an unrecognized selector (never produced by the source). -/
inductive PyError where
  | unboundLocal : String → PyError
  | unsupportedMethod : String → PyError
deriving DecidableEq, Repr

/-- The `if embed_method == "ase" / "lse" / "sklearn"` dispatch of `calc_ari`.
Returns the local variables `Xhat`, `Yhat` after the chain; `none` means the
Python name was left unassigned (no `else` branch exists in the source). -/
def dispatchEmbed (E : Externals) (knGraph : Mat) (embedMethod : String) :
    Option Mat × Option Mat :=
  if embedMethod = "ase" then
    let p := E.aseEmbed knGraph
    (some p.1, some p.2)
  else if embedMethod = "lse" then
    let p := E.lseEmbed knGraph
    (some p.1, some p.2)
  else if embedMethod = "sklearn" then
    (some (E.sklEmbed knGraph), none)
  else
    (none, none)

/-- Models `if embed_method == "ase" or embed_method == "lse": Xhat =
np.concatenate((Xhat, Yhat), axis=1)` — reading an unassigned name raises
`UnboundLocalError`. -/
def concatStep (embedMethod : String) (Xhat Yhat : Option Mat) :
    Except PyError (Option Mat) :=
  if embedMethod = "ase" ∨ embedMethod = "lse" then
    match Xhat, Yhat with
    | some x, some y => .ok (some (hconcat x y))
    | none, _ => .error (.unboundLocal "Xhat")
    | some _, none => .error (.unboundLocal "Yhat")
  else
    .ok Xhat

/-- Models `labels_mclust = gm_ic.fit_predict(Xhat)`: evaluating the argument `Xhat`
raises `UnboundLocalError` when it was never assigned; otherwise the external
Gaussian-mixture clustering produces the predicted labels. -/
def clusterStep (E : Externals) (trialIdx : Nat) (covType : String)
    (Xhat : Option Mat) : Except PyError (List Nat) :=
  match Xhat with
  | some x => .ok (E.gmmFitPredict trialIdx covType x)
  | none => .error (.unboundLocal "Xhat")

/-- One trial record: `{"test": embed_method, "ari": ari}`. -/
structure TrialRecord where
  test : String
  ari : ℚ
deriving DecidableEq, Repr

/-- The body of one iteration of the `for _ in range(n_sims)` loop of
`calc_ari`: dispatch, conditional concatenation, Gaussian-mixture clustering,
Adjusted Rand Index, record. -/
def runTrial (E : Externals) (knGraph : Mat) (embedMethod : String)
    (labelsTrue : List Nat) (covType : String) (trialIdx : Nat) :
    Except PyError TrialRecord := do
  let d := dispatchEmbed E knGraph embedMethod
  let Xhat ← concatStep embedMethod d.1 d.2
  let labelsMclust ← clusterStep E trialIdx covType Xhat
  .ok { test := embedMethod, ari := E.ariScore labelsTrue labelsMclust }

/-- Models `calc_ari(kn_graph, n_sims, embed_method, labels_true, cov_type)`
(the `part_000` / first tutorial document variant): run `n_sims` trials in
order, appending one record per trial; an exception in any trial aborts the
call. -/
def calc_ari (E : Externals) (knGraph : Mat) (nSims : Nat)
    (embedMethod : String) (labelsTrue : List Nat) (covType : String) :
    Except PyError (List TrialRecord) :=
  (List.range nSims).mapM (runTrial E knGraph embedMethod labelsTrue covType)

/-- Models `labels = int(n/2) * [0] + int(n/2) * [1]` — the ground-truth labels every
scenario builds (`labels_lse` / `labels_ase`). -/
def labels_true (n : Nat) : List Nat :=
  List.replicate (n / 2) 0 ++ List.replicate (n / 2) 1

/-- Models `int(np.sqrt(n))`: NumPy's float square root truncated to an integer,
i.e. `⌊√n⌋` — the neighbor count every scenario passes to
`kneighbors_graph(lat_mat, n_neighbors=...)`. -/
def intSqrt (n : Nat) : Nat := Nat.sqrt n

/-- Modelled from the spec: `round(√n)` as the spec's §4.1 words it
("k = round(√sample count)"); round-half-up on the real square root,
expressed over naturals (`√n ≥ s + 1/2 ↔ n ≥ s² + s + 1` for `s = ⌊√n⌋`).
For comparison with `intSqrt`, which is what the source computes. -/
def roundSqrtSpec (n : Nat) : Nat :=
  let s := Nat.sqrt n
  if s * s + s + 1 ≤ n then s + 1 else s

/-- One scenario's call to the k-nearest-neighbor graph builder: the sample
count of the scenario and the `n_neighbors` value actually passed. -/
structure KnnCall where
  nSamples : Nat
  nNeighbors : Nat
deriving DecidableEq, Repr

/-- Every `kneighbors_graph` call in the repository, with its scenario's
sample count: `part_000` cases 1–2 (`n_verts_lse = 100`, `n_verts_ase = 400`),
the first tutorial document's cases 1–2 (`n_vectors_lse = 250`,
`n_vectors_ase = 800`), and the second tutorial document's `calc_ari(n_verts,
...)` calls (`n_verts` = 100, 500, 100, 500).  Each passes
`n_neighbors = int(np.sqrt(n))`. -/
def allKnnCalls : List KnnCall :=
  [⟨100, intSqrt 100⟩, ⟨400, intSqrt 400⟩,
   ⟨250, intSqrt 250⟩, ⟨800, intSqrt 800⟩,
   ⟨100, intSqrt 100⟩, ⟨500, intSqrt 500⟩,
   ⟨100, intSqrt 100⟩, ⟨500, intSqrt 500⟩]

/-- The block-membership function implicit in the quadrant fill: sample `i`
belongs to group 0 when `i < ⌊n/2⌋`, group 1 otherwise. -/
def blockOf (n i : Nat) : Fin 2 := if i < n / 2 then 0 else 1

/-- One quadrant-assignment `P[r1:r2, c1:c2] = v` applied to a matrix viewed
as a function on indices. -/
def fillBlock (M : Nat → Nat → ℚ) (r1 r2 c1 c2 : Nat) (v : ℚ) :
    Nat → Nat → ℚ :=
  fun i j => if r1 ≤ i ∧ i < r2 ∧ c1 ≤ j ∧ j < c2 then v else M i j

/-- The probability-matrix construction of the block-model scenarios:
`P = np.zeros((n, n))` followed by the four quadrant assignments
`P[0:h,0:h] = B[0,0]`, `P[h:n,h:n] = B[1,1]`, `P[0:h,h:n] = B[0,1]`,
`P[h:n,0:h] = B[1,0]` with `h = int(n/2)`, in source order. -/
def Pfun (n : Nat) (B : Fin 2 → Fin 2 → ℚ) : Nat → Nat → ℚ :=
  fillBlock
    (fillBlock
      (fillBlock
        (fillBlock (fun _ _ => 0) 0 (n / 2) 0 (n / 2) (B 0 0))
        (n / 2) n (n / 2) n (B 1 1))
      0 (n / 2) (n / 2) n (B 0 1))
    (n / 2) n 0 (n / 2) (B 1 0)

/-- The same probability matrix materialized as a row-list matrix (the dense
array handed to `np.linalg.svd`). -/
def PmatList (n : Nat) (B : Fin 2 → Fin 2 → ℚ) : Mat :=
  (List.range n).map (fun i => (List.range n).map (fun j => Pfun n B i j))

/-- Transpose of a row-list matrix (`V.T` in the latent-position step);
column count taken from the first row. -/
def transposeMat (M : Mat) : Mat :=
  (List.range (M.headD []).length).map (fun j => M.map (fun row => row.getD j 0))

/-- Models `A[r1:r2, 0:2]`: row slice then first two columns. -/
def sliceRowsCols2 (M : Mat) (r1 r2 : Nat) : Mat :=
  ((M.take r2).drop r1).map (fun row => row.take 2)

/-- Models `np.diag(S[0:2])`: the 2×2 diagonal matrix of the two leading singular
values. -/
def diag2 (S : List ℚ) : Mat :=
  [[S.getD 0 0, 0], [0, S.getD 1 0]]

/-- Row-list matrix product (`@`); used for the 2-column latent positions
times the 2×2 scaled diagonal. -/
def matmul (A B : Mat) : Mat :=
  A.map (fun row =>
    (List.range (B.headD []).length).map (fun j =>
      ((List.range row.length).map
        (fun k => row.getD k 0 * (B.getD k []).getD j 0)).sum))

/-- External collaborators of the second tutorial document's `calc_ari`
variant (graph regenerated inside every trial).  `svd` models
`np.linalg.svd` (returning `U, S, V` as the source names them), `sqrtMat`
the element-wise `np.sqrt` on a matrix, `knnGraph` the `kneighbors_graph`
call followed by `.toarray()`, and `gmmICFitPredict` the
`GaussianMixtureIC(min_components=2, max_components=2,
covariance_type="all").fit_predict` step, which alone consumes the global
random state (modelled by the trial index). -/
structure ExternalsGen where
  svd : Mat → Mat × List ℚ × Mat
  sqrtMat : Mat → Mat
  knnGraph : Mat → Nat → Mat
  aseEmbed : Mat → Mat × Mat
  lseEmbed : Mat → Mat × Mat
  sklEmbed : Mat → Mat
  gmmICFitPredict : Nat → Mat → List Nat
  ariScore : List Nat → List Nat → ℚ

/-- The similarity-graph construction performed inside every trial of the
regenerating `calc_ari` variant: probability-matrix fill, singular value
decomposition, latent positions `X = U[0:h,0:2] @ np.sqrt(np.diag(S[0:2]))`
and `Y = V.T[h:n,0:2] @ np.sqrt(np.diag(S[0:2]))`, their row-wise
concatenation, and the binarized k-nearest-neighbor graph with
`n_neighbors = int(np.sqrt(n_verts))`.  A function of the call's parameters
(`n_verts`, `B`) and the deterministic library oracles only — no random
sampling and no trial index occurs in it. -/
def trialGraphGen (E : ExternalsGen) (nVerts : Nat) (B : Fin 2 → Fin 2 → ℚ) :
    Mat :=
  let P := PmatList nVerts B
  let USV := E.svd P
  let U := USV.1
  let S := USV.2.1
  let V := USV.2.2
  let X := matmul (sliceRowsCols2 U 0 (nVerts / 2)) (E.sqrtMat (diag2 S))
  let Y := matmul (sliceRowsCols2 (transposeMat V) (nVerts / 2) nVerts)
    (E.sqrtMat (diag2 S))
  let latMat := vconcat X Y
  E.knnGraph latMat (intSqrt nVerts)

/-- The graph a given trial of the regenerating variant operates on, as a
function of the trial index: the loop variable is unused by the construction
(`for _ in tqdm(range(n_sims), ...)`), so the index is a phantom parameter. -/
def graphOfTrialGen (E : ExternalsGen) (nVerts : Nat)
    (B : Fin 2 → Fin 2 → ℚ) (_trialIdx : Nat) : Mat :=
  trialGraphGen E nVerts B

/-- The coordinate matrix the regenerating variant hands to
`GaussianMixtureIC.fit_predict` in a given trial (dispatch plus conditional
concatenation applied to that trial's graph); `none` when `Xhat` stayed
unbound. -/
def clusterInputGen (E : ExternalsGen) (nVerts : Nat)
    (B : Fin 2 → Fin 2 → ℚ) (embedMethod : String) (trialIdx : Nat) :
    Except PyError (Option Mat) :=
  let g := graphOfTrialGen E nVerts B trialIdx
  let d :=
    if embedMethod = "ase" then
      let p := E.aseEmbed g
      (some p.1, some p.2)
    else if embedMethod = "lse" then
      let p := E.lseEmbed g
      (some p.1, some p.2)
    else if embedMethod = "sklearn" then
      (some (E.sklEmbed g), none)
    else
      ((none : Option Mat), (none : Option Mat))
  concatStep embedMethod d.1 d.2

/-- The scores of the records whose `test` field is `m` (the groupby key). -/
def scoresFor (rows : List TrialRecord) (m : String) : List ℚ :=
  (rows.filter (fun r => r.test = m)).map (fun r => r.ari)

/-- Models `df.groupby(["test"]).mean()` for one method: the arithmetic mean of that
method's scores. -/
def meanScore (rows : List TrialRecord) (m : String) : ℚ :=
  (scoresFor rows m).sum / (scoresFor rows m).length

/-- The mutable environment visible to a `calc_ari` call: the similarity
graph and the ground-truth labels passed in by the caller.  The source never
assigns into either (`kn_graph` and `labels_true` are only read), so each
translated step takes the environment and hands it back. -/
structure Env where
  knGraph : Mat
  labelsTrue : List Nat
deriving DecidableEq

/-- One loop iteration of `calc_ari`, threading the caller's environment
explicitly: dispatch and clustering read `env.knGraph`, scoring reads
`env.labelsTrue`; no step stores into the environment (faithful to the
source, which contains no assignment to `kn_graph` or `labels_true` or
their elements). -/
def runTrialSt (E : Externals) (embedMethod covType : String) (trialIdx : Nat)
    (env : Env) : Except PyError TrialRecord × Env :=
  let d := dispatchEmbed E env.knGraph embedMethod
  match concatStep embedMethod d.1 d.2 with
  | .error e => (.error e, env)
  | .ok Xhat =>
    match clusterStep E trialIdx covType Xhat with
    | .error e => (.error e, env)
    | .ok pred =>
      (.ok { test := embedMethod, ari := E.ariScore env.labelsTrue pred }, env)

/-- The `for _ in range(n_sims)` loop of `calc_ari` with the environment
threaded through every iteration; `i` is the current trial index, the second
argument the number of remaining trials. -/
def calcAriStLoop (E : Externals) (embedMethod covType : String) :
    Nat → Nat → Env → Except PyError (List TrialRecord) × Env
  | _, 0, env => (.ok [], env)
  | i, k + 1, env =>
    match runTrialSt E embedMethod covType i env with
    | (.error e, env1) => (.error e, env1)
    | (.ok r, env1) =>
      match calcAriStLoop E embedMethod covType (i + 1) k env1 with
      | (.error e, env2) => (.error e, env2)
      | (.ok rs, env2) => (.ok (r :: rs), env2)

/-- Translation of `calc_ari` in state-passing form: runs the trial loop against the
caller's environment and returns the result together with the environment
as it stands after the call. -/
def calc_ari_st (E : Externals) (env : Env) (nSims : Nat)
    (embedMethod covType : String) : Except PyError (List TrialRecord) × Env :=
  calcAriStLoop E embedMethod covType 0 nSims env

/-- The coordinate matrix a recognized method hands to the clustering step
(the value of the local `Xhat` after the conditional concatenation). -/
def coordsOf (E : Externals) (knGraph : Mat) (embedMethod : String) : Mat :=
  if embedMethod = "ase" then
    hconcat (E.aseEmbed knGraph).1 (E.aseEmbed knGraph).2
  else if embedMethod = "lse" then
    hconcat (E.lseEmbed knGraph).1 (E.lseEmbed knGraph).2
  else
    E.sklEmbed knGraph

/-- The Adjusted Rand Index score trial `i` records for a recognized
method. -/
def trialScore (E : Externals) (knGraph : Mat) (embedMethod : String)
    (labelsTrue : List Nat) (covType : String) (trialIdx : Nat) : ℚ :=
  E.ariScore labelsTrue
    (E.gmmFitPredict trialIdx covType (coordsOf E knGraph embedMethod))

/-- Dispatch followed by the conditional concatenation: the value of `Xhat`
at the moment `gm_ic.fit_predict(Xhat)` is evaluated (or the error raised
on the way there). -/
def clusterInputOf (E : Externals) (knGraph : Mat) (embedMethod : String) :
    Except PyError (Option Mat) :=
  let d := dispatchEmbed E knGraph embedMethod
  concatStep embedMethod d.1 d.2

/-- Row widths: every row of `M` has length `w` (`M` has `w` columns). -/
def matWidth (M : Mat) (w : Nat) : Prop :=
  ∀ row ∈ M, row.length = w

/-- Concrete external collaborators used to instantiate hypotheses at
concrete inputs. -/
def Ew : Externals where
  aseEmbed := fun g => (g, g)
  lseEmbed := fun g => (g, g)
  sklEmbed := fun g => g
  gmmFitPredict := fun _ _ X => X.map (fun _ => 0)
  ariScore := fun _ _ => 1

/-- Concrete external collaborators for the regenerating variant. -/
def EwGen : ExternalsGen where
  svd := fun P => (P, [1, 1], P)
  sqrtMat := fun M => M
  knnGraph := fun M _ => M
  aseEmbed := fun g => (g, g)
  lseEmbed := fun g => (g, g)
  sklEmbed := fun g => g
  gmmICFitPredict := fun _ _ => []
  ariScore := fun _ _ => 0

/-- A concrete 2×2 block matrix for instantiations. -/
def Bexample : Fin 2 → Fin 2 → ℚ :=
  fun a b => (a.1 : ℚ) * 10 + (b.1 : ℚ)

theorem runTrial_ase (E : Externals) (g : Mat) (L : List Nat) (cov : String)
    (i : Nat) :
    runTrial E g "ase" L cov i =
      .ok { test := "ase", ari := trialScore E g "ase" L cov i } := rfl

theorem runTrial_lse (E : Externals) (g : Mat) (L : List Nat) (cov : String)
    (i : Nat) :
    runTrial E g "lse" L cov i =
      .ok { test := "lse", ari := trialScore E g "lse" L cov i } := rfl

theorem runTrial_sklearn (E : Externals) (g : Mat) (L : List Nat)
    (cov : String) (i : Nat) :
    runTrial E g "sklearn" L cov i =
      .ok { test := "sklearn", ari := trialScore E g "sklearn" L cov i } := rfl

theorem runTrial_unrecognized (E : Externals) (g : Mat) (L : List Nat)
    (cov : String) (i : Nat) (m : String)
    (h1 : m ≠ "ase") (h2 : m ≠ "lse") (h3 : m ≠ "sklearn") :
    runTrial E g m L cov i = .error (.unboundLocal "Xhat") := by
  simp only [runTrial, dispatchEmbed, concatStep, clusterStep,
    if_neg h1, if_neg h2, if_neg h3]
  rw [if_neg (by simp [h1, h2])]
  rfl

theorem mapM_ok_of_eq {α β : Type} (f : α → Except PyError β) (g : α → β) :
    ∀ l : List α, (∀ a ∈ l, f a = .ok (g a)) → l.mapM f = .ok (l.map g) := by
  intro l
  induction l with
  | nil => intro _; rfl
  | cons a l ih =>
    intro h
    rw [List.mapM_cons, h a (List.mem_cons_self a l), List.map_cons,
      ih (fun x hx => h x (List.mem_cons_of_mem a hx))]
    rfl

theorem calc_ari_ok (E : Externals) (g : Mat) (n : Nat) (m : String)
    (L : List Nat) (cov : String)
    (hm : m = "ase" ∨ m = "lse" ∨ m = "sklearn") :
    calc_ari E g n m L cov =
      .ok ((List.range n).map
        (fun i => { test := m, ari := trialScore E g m L cov i })) := by
  apply mapM_ok_of_eq
  intro i _
  rcases hm with h | h | h <;> subst h
  · exact runTrial_ase E g L cov i
  · exact runTrial_lse E g L cov i
  · exact runTrial_sklearn E g L cov i

theorem getD_replicate_of_lt {α : Type} (a d : α) {k i : Nat} (h : i < k) :
    (List.replicate k a).getD i d = a := by
  rw [List.getD_eq_getElem _ _ (by simpa using h), List.getElem_replicate]

/-- C1: for a method selector outside {"ase", "lse", "sklearn"}, `calc_ari`
does NOT raise the explicit documented unsupported-method error: the dispatch
chain has no else-branch, the coordinate variable `Xhat` stays unbound, and
the call fails with an unbound-local error only when the clustering step
reads `Xhat` — i.e. the claim's required explicit error never occurs.  This
evaluates the code at the failing input class, exhibiting the code bug the
spec's §7 itself flags. -/
theorem c1_unrecognized_method_no_explicit_error (E : Externals) (g : Mat)
    (L : List Nat) (cov : String) (m : String)
    (h1 : m ≠ "ase") (h2 : m ≠ "lse") (h3 : m ≠ "sklearn") :
    calc_ari E g 1 m L cov = .error (.unboundLocal "Xhat") ∧
    ∀ s, calc_ari E g 1 m L cov ≠ .error (.unsupportedMethod s) := by
  have h : calc_ari E g 1 m L cov = .error (.unboundLocal "Xhat") := by
    show (List.range 1).mapM _ = _
    have h0 : List.range 1 = [0] := rfl
    rw [h0, List.mapM_cons, runTrial_unrecognized E g L cov 0 m h1 h2 h3]
    rfl
  refine ⟨h, fun s hs => ?_⟩
  rw [h] at hs
  simp at hs

/-- C1 witness: the concrete unrecognized selector "pca" makes `calc_ari`
fail with the unbound-local error, not an unsupported-method error. -/
theorem c1_witness :
    calc_ari Ew [[1]] 1 "pca" [0] "full" = .error (.unboundLocal "Xhat") :=
  (c1_unrecognized_method_no_explicit_error Ew [[1]] [0] "full" "pca"
    (by decide) (by decide) (by decide)).1

/-- C2 counterexample: the first tutorial document's case-1 scenario has 250
samples and passes `int(np.sqrt(250)) = 15` neighbors, while
`round(√250) = 16`; so the neighbor count does not equal `round(√n)` in
every scenario. -/
theorem c2_counterexample :
    (⟨250, intSqrt 250⟩ : KnnCall) ∈ allKnnCalls ∧
    (⟨250, intSqrt 250⟩ : KnnCall).nNeighbors = 15 ∧
    roundSqrtSpec 250 = 16 ∧
    (⟨250, intSqrt 250⟩ : KnnCall).nNeighbors ≠ roundSqrtSpec 250 := by
  have h250 : Nat.sqrt 250 = 15 := (Nat.eq_sqrt.mpr (by norm_num)).symm
  refine ⟨by simp [allKnnCalls], ?_, ?_, ?_⟩
  · show intSqrt 250 = 15
    rw [intSqrt, h250]
  · rw [roundSqrtSpec]
    simp only [h250]
    norm_num
  · show intSqrt 250 ≠ roundSqrtSpec 250
    rw [intSqrt, roundSqrtSpec]
    simp only [h250]
    norm_num

/-- C2 (amended): in every scenario construction the neighbor count passed to
the k-nearest-neighbor graph builder equals `⌊√n⌋` (Python's
`int(np.sqrt(n))`, truncation rather than rounding), where `n` is the
scenario's sample count; equivalently it is the unique `k` with
`k² ≤ n < (k+1)²`. -/
theorem c2_knn_neighbor_count_floor_sqrt (c : KnnCall)
    (hc : c ∈ allKnnCalls) :
    c.nNeighbors = Nat.sqrt c.nSamples ∧
    c.nNeighbors * c.nNeighbors ≤ c.nSamples ∧
    c.nSamples < (c.nNeighbors + 1) * (c.nNeighbors + 1) := by
  fin_cases hc <;>
    refine ⟨rfl, ?_, ?_⟩ <;>
    simp only [intSqrt] <;>
    first
      | exact Nat.sqrt_le _
      | exact Nat.lt_succ_sqrt _

/-- C2 witness: the 100-vertex scenario passes 10 = ⌊√100⌋ neighbors. -/
theorem c2_knn_witness :
    (⟨100, intSqrt 100⟩ : KnnCall) ∈ allKnnCalls ∧
    ((⟨100, intSqrt 100⟩ : KnnCall).nNeighbors =
      Nat.sqrt (⟨100, intSqrt 100⟩ : KnnCall).nSamples ∧
     (⟨100, intSqrt 100⟩ : KnnCall).nNeighbors *
      (⟨100, intSqrt 100⟩ : KnnCall).nNeighbors ≤
      (⟨100, intSqrt 100⟩ : KnnCall).nSamples ∧
     (⟨100, intSqrt 100⟩ : KnnCall).nSamples <
      ((⟨100, intSqrt 100⟩ : KnnCall).nNeighbors + 1) *
      ((⟨100, intSqrt 100⟩ : KnnCall).nNeighbors + 1)) :=
  ⟨by simp [allKnnCalls],
   c2_knn_neighbor_count_floor_sqrt ⟨100, intSqrt 100⟩ (by simp [allKnnCalls])⟩

/-- C3 counterexample: at sample count 1 (an odd count ≥ 1) the constructed
label list `int(1/2)*[0] + int(1/2)*[1]` is empty, so its length is 0, not
the sample count 1. -/
theorem c3_counterexample :
    1 ≥ 1 ∧ (labels_true 1).length = 0 ∧ (labels_true 1).length ≠ 1 := by
  decide

/-- C3 (amended): for every EVEN sample count `n`, the ground-truth label
list has length `n`, assigns group 0 to the first half (indices `< n/2`) and
group 1 to the second half; for odd `n` the construction drops one sample
(length `2·⌊n/2⌋`), violating the stated invariant. -/
theorem c3_labels_halves (n : Nat) (hn : n % 2 = 0) :
    (labels_true n).length = n ∧
    (∀ d i, i < n / 2 → (labels_true n).getD i d = 0) ∧
    (∀ d i, n / 2 ≤ i → i < n → (labels_true n).getD i d = 1) := by
  refine ⟨?_, ?_, ?_⟩
  · simp only [labels_true, List.length_append, List.length_replicate]
    omega
  · intro d i hi
    rw [labels_true, List.getD_append _ _ _ _ (by simpa using hi),
      getD_replicate_of_lt _ _ hi]
  · intro d i hi1 hi2
    rw [labels_true, List.getD_append_right _ _ _ _ (by simpa using hi1),
      getD_replicate_of_lt _ _ (by simp; omega)]

/-- C3 witness: at the even sample count 4 the labels have length 4, index 1
holds 0 and index 2 holds 1. -/
theorem c3_witness :
    (labels_true 4).length = 4 ∧
    (labels_true 4).getD 1 7 = 0 ∧ (labels_true 4).getD 2 7 = 1 :=
  ⟨(c3_labels_halves 4 rfl).1,
   (c3_labels_halves 4 rfl).2.1 7 1 (by decide),
   (c3_labels_halves 4 rfl).2.2 7 2 (by decide) (by decide)⟩

/-- C4: in every trial, methods "ase" and "lse" column-wise concatenate the
two returned matrices (row-space and column-space embeddings) into the single
coordinate matrix handed to the Gaussian-mixture clustering step, while
"sklearn" hands its single returned matrix to clustering directly. -/
theorem c4_concat_for_pair_methods_direct_for_sklearn (E : Externals)
    (g : Mat) (L : List Nat) (cov : String) (i : Nat) :
    runTrial E g "ase" L cov i =
      .ok { test := "ase",
            ari := E.ariScore L (E.gmmFitPredict i cov
              (hconcat (E.aseEmbed g).1 (E.aseEmbed g).2)) } ∧
    runTrial E g "lse" L cov i =
      .ok { test := "lse",
            ari := E.ariScore L (E.gmmFitPredict i cov
              (hconcat (E.lseEmbed g).1 (E.lseEmbed g).2)) } ∧
    runTrial E g "sklearn" L cov i =
      .ok { test := "sklearn",
            ari := E.ariScore L (E.gmmFitPredict i cov (E.sklEmbed g)) } :=
  ⟨rfl, rfl, rfl⟩

/-- C5: for every trial count and recognized method, `calc_ari` returns
exactly `n` records, in trial-execution order (record `i` is trial `i`),
each pairing the method name with that trial's Adjusted Rand Index score. -/
theorem c5_calc_ari_one_record_per_trial (E : Externals) (g : Mat)
    (L : List Nat) (cov m : String) (n : Nat)
    (hm : m = "ase" ∨ m = "lse" ∨ m = "sklearn") :
    ∃ rows, calc_ari E g n m L cov = .ok rows ∧ rows.length = n ∧
      ∀ i (hi : i < rows.length),
        rows.get ⟨i, hi⟩ = { test := m, ari := trialScore E g m L cov i } ∧
        Except.ok (rows.get ⟨i, hi⟩) = runTrial E g m L cov i := by
  refine ⟨_, calc_ari_ok E g n m L cov hm, by simp, ?_⟩
  intro i hi
  have hget : (List.map
      (fun i => ({ test := m, ari := trialScore E g m L cov i } : TrialRecord))
      (List.range n)).get ⟨i, hi⟩ =
      { test := m, ari := trialScore E g m L cov i } := by
    simp [List.get_eq_getElem]
  refine ⟨hget, ?_⟩
  rw [hget]
  rcases hm with h | h | h <;> subst h
  · exact (runTrial_ase E g L cov i).symm
  · exact (runTrial_lse E g L cov i).symm
  · exact (runTrial_sklearn E g L cov i).symm

/-- C5 witness: two trials with the "ase" method on a concrete graph yield
exactly two ordered records of that method. -/
theorem c5_witness :
    ∃ rows, calc_ari Ew [[1]] 2 "ase" [0] "full" = .ok rows ∧
      rows.length = 2 ∧
      ∀ i (hi : i < rows.length),
        rows.get ⟨i, hi⟩ =
          { test := "ase", ari := trialScore Ew [[1]] "ase" [0] "full" i } ∧
        Except.ok (rows.get ⟨i, hi⟩) = runTrial Ew [[1]] "ase" [0] "full" i :=
  c5_calc_ari_one_record_per_trial Ew [[1]] [0] "full" "ase" 2 (Or.inl rfl)

/-- C6: aggregation groups the records by method and takes the arithmetic
mean of their scores, so when all `n ≥ 1` trials of a recognized method
produce the same score `s`, the aggregated mean score for that method is
`s`. -/
theorem c6_mean_of_constant_scores (E : Externals) (g : Mat) (L : List Nat)
    (cov m : String) (n : Nat) (s : ℚ)
    (hm : m = "ase" ∨ m = "lse" ∨ m = "sklearn") (hn : 0 < n)
    (hs : ∀ i, i < n → trialScore E g m L cov i = s) :
    ∃ rows, calc_ari E g n m L cov = .ok rows ∧ meanScore rows m = s := by
  refine ⟨_, calc_ari_ok E g n m L cov hm, ?_⟩
  have hsf : scoresFor
      ((List.range n).map
        (fun i => ({ test := m, ari := trialScore E g m L cov i } : TrialRecord)))
      m = List.replicate n s := by
    rw [scoresFor, List.filter_map, List.map_map]
    have hfil : List.filter
        ((fun r : TrialRecord => decide (r.test = m)) ∘
          (fun i => ({ test := m, ari := trialScore E g m L cov i } : TrialRecord)))
        (List.range n) = List.range n := by
      apply List.filter_eq_self.mpr
      intro a _
      simp
    rw [hfil]
    have : ((fun r : TrialRecord => r.ari) ∘
        (fun i => ({ test := m, ari := trialScore E g m L cov i } : TrialRecord))) =
        fun i => trialScore E g m L cov i := rfl
    rw [this]
    have hcongr : (List.range n).map (fun i => trialScore E g m L cov i) =
        (List.range n).map (fun _ => s) := by
      apply List.map_congr_left
      intro a ha
      exact hs a (List.mem_range.mp ha)
    rw [hcongr]
    simp [List.map_const]
  rw [meanScore, hsf, List.sum_replicate, List.length_replicate,
    nsmul_eq_mul]
  exact mul_div_cancel_left₀ s (Nat.cast_ne_zero.mpr hn.ne')

/-- C6 witness: two trials all scoring 1 aggregate to mean 1. -/
theorem c6_witness :
    ∃ rows, calc_ari Ew [[1]] 2 "ase" [0] "full" = .ok rows ∧
      meanScore rows "ase" = 1 :=
  c6_mean_of_constant_scores Ew [[1]] [0] "full" "ase" 2 1 (Or.inl rfl)
    (by norm_num) (fun _ _ => rfl)

/-- C7: in the block-model construction the full probability matrix
broadcasts the four block values into the four quadrants:
`P[i][j] = B[g(i)][g(j)]` with `g(i) = 0` for `i < ⌊n/2⌋` and `1`
otherwise. -/
theorem c7_probability_matrix_broadcast (n : Nat) (B : Fin 2 → Fin 2 → ℚ)
    (i j : Nat) (hi : i < n) (hj : j < n) :
    Pfun n B i j = B (blockOf n i) (blockOf n j) := by
  unfold Pfun fillBlock blockOf
  split_ifs <;> first | rfl | (exfalso; omega)

/-- C7 witness: at `n = 4` with a concrete block matrix, entry (1, 3) holds
the cross-block value. -/
theorem c7_witness :
    Pfun 4 Bexample 1 3 = Bexample (blockOf 4 1) (blockOf 4 3) :=
  c7_probability_matrix_broadcast 4 Bexample 1 3 (by norm_num) (by norm_num)

theorem runTrialSt_snd (E : Externals) (m cov : String) (i : Nat)
    (env : Env) : (runTrialSt E m cov i env).2 = env := by
  rcases hc : concatStep m (dispatchEmbed E env.knGraph m).1
      (dispatchEmbed E env.knGraph m).2 with e | X
  · simp [runTrialSt, hc]
  · rcases hk : clusterStep E i cov X with e | pred <;>
      simp [runTrialSt, hc, hk]

theorem calcAriStLoop_snd (E : Externals) (m cov : String) :
    ∀ k i env, (calcAriStLoop E m cov i k env).2 = env := by
  intro k
  induction k with
  | zero => intro i env; rfl
  | succ k ih =>
    intro i env
    have h1 := runTrialSt_snd E m cov i env
    rcases hr : runTrialSt E m cov i env with ⟨res, env1⟩
    rw [hr] at h1
    subst h1
    cases res with
    | error e => simp [calcAriStLoop, hr]
    | ok r =>
      have h2 := ih (i + 1) env1
      rcases hl : calcAriStLoop E m cov (i + 1) k env1 with ⟨res2, env2⟩
      rw [hl] at h2
      subst h2
      cases res2 <;> simp [calcAriStLoop, hr, hl]

/-- C8: a `calc_ari` call leaves the caller's environment — the similarity
graph and the ground-truth label list — exactly as it found it; its only
product is the returned record collection.  (The older variant's progress
indicator is display output, outside the modelled state.) -/
theorem c8_calc_ari_no_side_effects (E : Externals) (env : Env) (n : Nat)
    (m cov : String) : (calc_ari_st E env n m cov).2 = env :=
  calcAriStLoop_snd E m cov n 0 env

/-- C9: in the regenerating notebook variant, the similarity-graph
construction inside each trial is a deterministic function of the call's
parameters: all trials of one call use the identical graph, equal parameters
give equal graphs across calls, and the coordinate matrix fed to the
mixture-clustering step is likewise identical across trials — only the
clustering step sees the trial-varying random state. -/
theorem c9_trial_graph_deterministic (E : ExternalsGen) (n n2 : Nat)
    (B B2 : Fin 2 → Fin 2 → ℚ) (m : String)
    (hn : n = n2) (hB : B = B2) :
    (∀ i j, graphOfTrialGen E n B i = graphOfTrialGen E n B j) ∧
    trialGraphGen E n B = trialGraphGen E n2 B2 ∧
    (∀ i j, clusterInputGen E n B m i = clusterInputGen E n B m j) := by
  subst hn
  subst hB
  exact ⟨fun i j => rfl, rfl, fun i j => rfl⟩

/-- C9 witness: with concrete oracles, 4 vertices and a concrete block
matrix, trials 0 and 1 build the same graph and the same clustering input. -/
theorem c9_witness :
    graphOfTrialGen EwGen 4 Bexample 0 = graphOfTrialGen EwGen 4 Bexample 1 ∧
    trialGraphGen EwGen 4 Bexample = trialGraphGen EwGen 4 Bexample ∧
    clusterInputGen EwGen 4 Bexample "ase" 0 =
      clusterInputGen EwGen 4 Bexample "ase" 1 :=
  ⟨(c9_trial_graph_deterministic EwGen 4 4 Bexample Bexample "ase"
      rfl rfl).1 0 1,
   (c9_trial_graph_deterministic EwGen 4 4 Bexample Bexample "ase"
      rfl rfl).2.1,
   (c9_trial_graph_deterministic EwGen 4 4 Bexample Bexample "ase"
      rfl rfl).2.2 0 1⟩

theorem mem_hconcat {X Y : Mat} {r : List ℚ} (h : r ∈ hconcat X Y) :
    ∃ x ∈ X, ∃ y ∈ Y, r = x ++ y := by
  rw [hconcat] at h
  induction X generalizing Y with
  | nil => simp at h
  | cons a X ih =>
    cases Y with
    | nil => simp at h
    | cons b Y =>
      rw [List.zipWith_cons_cons] at h
      rcases List.mem_cons.mp h with h1 | h2
      · exact ⟨a, List.mem_cons_self a X, b, List.mem_cons_self b Y, h1⟩
      · obtain ⟨x, hx, y, hy, hr⟩ := ih h2
        exact ⟨x, List.mem_cons_of_mem a hx, y, List.mem_cons_of_mem b hy, hr⟩

theorem hconcat_width {X Y : Mat} {a b : Nat} (hX : matWidth X a)
    (hY : matWidth Y b) : matWidth (hconcat X Y) (a + b) := by
  intro r hr
  obtain ⟨x, hx, y, hy, hr⟩ := mem_hconcat hr
  rw [hr, List.length_append, hX x hx, hY y hy]

/-- C10: when the three per-method embeddings honor their 2-component
contract (every returned coordinate matrix has 2 columns), the coordinate
matrix handed to the Gaussian-mixture clustering step has 4 columns for
"ase" and "lse" (two 2-dimensional embeddings concatenated side-by-side) but
only 2 columns for "sklearn": the methods are clustered in spaces of
different dimensionality. -/
theorem c10_cluster_input_dimensions (E : Externals) (g : Mat)
    (hA1 : matWidth (E.aseEmbed g).1 2) (hA2 : matWidth (E.aseEmbed g).2 2)
    (hL1 : matWidth (E.lseEmbed g).1 2) (hL2 : matWidth (E.lseEmbed g).2 2)
    (hS : matWidth (E.sklEmbed g) 2) :
    (clusterInputOf E g "ase" =
      .ok (some (hconcat (E.aseEmbed g).1 (E.aseEmbed g).2)) ∧
     matWidth (hconcat (E.aseEmbed g).1 (E.aseEmbed g).2) 4) ∧
    (clusterInputOf E g "lse" =
      .ok (some (hconcat (E.lseEmbed g).1 (E.lseEmbed g).2)) ∧
     matWidth (hconcat (E.lseEmbed g).1 (E.lseEmbed g).2) 4) ∧
    (clusterInputOf E g "sklearn" = .ok (some (E.sklEmbed g)) ∧
     matWidth (E.sklEmbed g) 2) :=
  ⟨⟨rfl, hconcat_width hA1 hA2⟩, ⟨rfl, hconcat_width hL1 hL2⟩, ⟨rfl, hS⟩⟩

/-- C10 witness: with concrete oracles on a concrete one-row graph whose
embeddings are 2-column, the clustering inputs are 4-column for "ase"/"lse"
and 2-column for "sklearn". -/
theorem c10_witness :
    (clusterInputOf Ew [[1, 2]] "ase" =
      .ok (some (hconcat (Ew.aseEmbed [[1, 2]]).1 (Ew.aseEmbed [[1, 2]]).2)) ∧
     matWidth (hconcat (Ew.aseEmbed [[1, 2]]).1 (Ew.aseEmbed [[1, 2]]).2) 4) ∧
    (clusterInputOf Ew [[1, 2]] "lse" =
      .ok (some (hconcat (Ew.lseEmbed [[1, 2]]).1 (Ew.lseEmbed [[1, 2]]).2)) ∧
     matWidth (hconcat (Ew.lseEmbed [[1, 2]]).1 (Ew.lseEmbed [[1, 2]]).2) 4) ∧
    (clusterInputOf Ew [[1, 2]] "sklearn" = .ok (some (Ew.sklEmbed [[1, 2]])) ∧
     matWidth (Ew.sklEmbed [[1, 2]]) 2) :=
  c10_cluster_input_dimensions Ew [[1, 2]]
    (by intro r hr; simp [Ew] at hr; simp [hr])
    (by intro r hr; simp [Ew] at hr; simp [hr])
    (by intro r hr; simp [Ew] at hr; simp [hr])
    (by intro r hr; simp [Ew] at hr; simp [hr])
    (by intro r hr; simp [Ew] at hr; simp [hr])
